import Mathlib

/-!
Verification of the countdown-timer behaviour of the sports-portal
front-end scripts.

Two countdown implementations exist in the repository:

* `src/static/js/golf.js` lines 38-70: `time_remaining(endtime)` computes
  the decomposed remaining duration until `endtime`, and `run_clock`
  drives a once-per-second update loop writing into four display slots,
  clearing the interval once the remaining total is `<= 0`.

* `src/unnamed/part_000` lines 127-169: an IIFE computes a "birthday"
  deadline (fixed month/day `09/30`, year rolled forward when today's
  date string compares greater), then runs a `setInterval` loop writing
  unpadded values into four slots and clearing the interval once the
  distance is `< 0`.

All JavaScript arithmetic here is exact (the magnitudes involved are far
below 2^53), so numbers are embedded as `Int`.  `Math.floor` on a real
quotient of integers is `Int.fdiv`; the JavaScript `%` operator is the
truncated remainder `Int.tmod` (sign of the dividend).  A quantity such
as `Math.floor((t/1000) % 60)` equals `Int.fdiv (Int.tmod t 60000) 1000`:
`(t/1000) % 60 = (t - 60000 * trunc(t/60000)) / 1000 = (tmod t 60000)/1000`
as real numbers, and flooring that real quotient is `fdiv` by `1000`.
-/

/-- Result record of `time_remaining` in golf.js:
`{'total':t, 'days':days, 'hours':hours, 'minutes':minutes, 'seconds':seconds}`. -/
structure Remaining where
  total : Int
  days : Int
  hours : Int
  minutes : Int
  seconds : Int
deriving DecidableEq, Repr

/-- golf.js lines 39-46, on the path where `Date.parse(endtime)` succeeds
with value `endtime` and `Date.parse(new Date())` reads `now`:

    var t = Date.parse(endtime) - Date.parse(new Date());
    var seconds = Math.floor( (t/1000) % 60 );
    var minutes = Math.floor( (t/1000/60) % 60 );
    var hours = Math.floor( (t/(1000*60*60)) % 24 );
    var days = Math.floor( t/(1000*60*60*24) );

`Math.floor((t/1000) % 60) = fdiv (tmod t 60000) 1000` and similarly for
minutes (`% 3600000`, `/ 60000`) and hours (`% 86400000`, `/ 3600000`);
`Math.floor(t/86400000) = fdiv t 86400000`. -/
def time_remaining (endtime now : Int) : Remaining :=
  let t := endtime - now
  { total := t
    days := Int.fdiv t 86400000
    hours := Int.fdiv (Int.tmod t 86400000) 3600000
    minutes := Int.fdiv (Int.tmod t 3600000) 60000
    seconds := Int.fdiv (Int.tmod t 60000) 1000 }

/-- The scheduled (post-`setInterval`) part of golf.js `run_clock`:
each scheduled invocation of `update_clock` recomputes `time_remaining`,
publishes it, and runs `if(t.total<=0){ clearInterval(timeinterval); }`
with `timeinterval` now holding the live interval handle, so a tick with
`total <= 0` is the last one delivered.  Input: the list of clock
readings at which the scheduler fires.  Output: the ticks delivered and
whether `clearInterval` cleared the live handle. -/
def run_clock_sched (endtime : Int) : List Int → List Remaining × Bool
  | [] => ([], false)
  | n :: rest =>
    let t := time_remaining endtime n
    if t.total ≤ 0 then ([t], true)
    else
      let p := run_clock_sched endtime rest
      (t :: p.1, p.2)

/-- golf.js lines 56-69: `run_clock` calls `update_clock()` once
synchronously *before* `var timeinterval = setInterval(update_clock,1000)`
assigns the handle.  During that first call `timeinterval` is still
`undefined`, so its `clearInterval(timeinterval)` is a no-op and the
interval is armed regardless of the first tick's result.  The first
element of `nows` is the clock reading of the synchronous call, the rest
are the scheduled readings. -/
def run_clock_trace (endtime : Int) (nows : List Int) : List Remaining × Bool :=
  match nows with
  | [] => ([], false)
  | n0 :: rest =>
    let p := run_clock_sched endtime rest
    (time_remaining endtime n0 :: p.1, p.2)

/-- Display record of the part_000 IIFE countdown (no `total` field is
stored; the loop keeps `distance` locally). -/
structure IifeRemaining where
  days : Int
  hours : Int
  minutes : Int
  seconds : Int
deriving DecidableEq, Repr

/-- part_000 lines 152-158, the IIFE tick computation:

    const now = new Date().getTime(), distance = countDown - now;
    days slot    := Math.floor(distance / day)
    hours slot   := Math.floor((distance % day) / hour)
    minutes slot := Math.floor((distance % hour) / minute)
    seconds slot := Math.floor((distance % minute) / second)

with `second = 1000`, `minute = 60000`, `hour = 3600000`,
`day = 86400000`; `%` is the JS truncated remainder `Int.tmod` and the
subsequent `Math.floor` of the real quotient is `Int.fdiv`. -/
def iife_remaining (countDown now : Int) : IifeRemaining :=
  let distance := countDown - now
  { days := Int.fdiv distance 86400000
    hours := Int.fdiv (Int.tmod distance 86400000) 3600000
    minutes := Int.fdiv (Int.tmod distance 3600000) 60000
    seconds := Int.fdiv (Int.tmod distance 60000) 1000 }

/-- part_000 lines 150-168: the IIFE `setInterval` loop.  Each tick
publishes `iife_remaining` and then, only when `distance < 0` (strict),
performs the expiry side effects (headline text, panel visibility) and
`clearInterval(x)`.  Output: ticks delivered and whether expiry fired
(equivalently, whether the interval was cleared). -/
def iife_run (countDown : Int) : List Int → List IifeRemaining × Bool
  | [] => ([], false)
  | n :: rest =>
    if countDown - n < 0 then ([iife_remaining countDown n], true)
    else
      let p := iife_run countDown rest
      (iife_remaining countDown n :: p.1, p.2)

/-- Modelled from the spec: `computeRemaining(deadline, now)` with the
field formulas of the data model, read with mathematical floor division
and mathematical (nonnegative-remainder) modulo:
`days = floor(total / 86400000)`,
`hours = floor((total mod 86400000) / 3600000)`,
`minutes = floor((total mod 3600000) / 60000)`,
`seconds = floor((total mod 60000) / 1000)`,
where `total` is the signed difference `deadline - now`.  For a positive
modulus, mathematical mod is `Int.emod` and floor division of the
(nonnegative) remainder is `Int.ediv` (written `/`). -/
def spec_remaining (deadline now : Int) : Remaining :=
  let total := deadline - now
  { total := total
    days := Int.fdiv total 86400000
    hours := (total % 86400000) / 3600000
    minutes := (total % 3600000) / 60000
    seconds := (total % 60000) / 1000 }

/-! ## Display strings

Strings are embedded as lists of character codes (`List Nat`), since the
display writes only involve decimal digits, `-`, `/` and `N`/`a`. -/

/-- Decimal digits of `n`, least significant first, with explicit fuel
(`n` itself suffices since the argument shrinks by division by 10). -/
def digitsFuel : Nat → Nat → List Nat
  | 0, _ => []
  | _ + 1, 0 => []
  | fuel + 1, n => n % 10 :: digitsFuel fuel (n / 10)

/-- JavaScript `String(n)` for a nonnegative number: decimal digit
character codes, most significant first; `String(0) = "0"`. -/
def jsNatStr (n : Nat) : List Nat :=
  if n = 0 then [48] else ((digitsFuel n n).map (fun d => 48 + d)).reverse

/-- JavaScript `String(i)` for an integer: a leading `-` (code 45) when
negative. -/
def jsIntStr (i : Int) : List Nat :=
  if i < 0 then 45 :: jsNatStr i.natAbs else jsNatStr i.toNat

/-- JavaScript `s.slice(-2)`: the last two characters (the whole string
when it is shorter than two). -/
def slice2 (l : List Nat) : List Nat := l.drop (l.length - 2)

/-- golf.js `('0' + x).slice(-2)` applied to the number `x`: prepend the
character `'0'` (code 48) to `String(x)`, then keep the last two
characters. -/
def padded2 (x : Int) : List Nat := slice2 (48 :: jsIntStr x)

/-- The four strings written to the display slots on one tick. -/
structure SlotWrites where
  days : List Nat
  hours : List Nat
  minutes : List Nat
  seconds : List Nat
deriving DecidableEq, Repr

/-- golf.js lines 60-63 (one `update_clock` tick, parse-success path):

    days_span.innerHTML = t.days;
    hours_span.innerHTML = ('0' + t.hours).slice(-2);
    minutes_span.innerHTML = ('0' + t.minutes).slice(-2);
    seconds_span.innerHTML = ('0' + t.seconds).slice(-2);

`innerHTML = n` coerces the number with `String(n)`. -/
def golf_writes (endtime now : Int) : SlotWrites :=
  let t := time_remaining endtime now
  { days := jsIntStr t.days
    hours := padded2 t.hours
    minutes := padded2 t.minutes
    seconds := padded2 t.seconds }

/-- part_000 lines 155-158 (one IIFE tick): all four slots receive the
unpadded `String(Math.floor(...))` of the computed value. -/
def iife_writes (countDown now : Int) : SlotWrites :=
  let r := iife_remaining countDown now
  { days := jsIntStr r.days
    hours := jsIntStr r.hours
    minutes := jsIntStr r.minutes
    seconds := jsIntStr r.seconds }

/-! ## Deadline computation of the part_000 IIFE (lines 135-149) -/

/-- JavaScript `String(n).padStart(2, "0")` for a calendar component `n < 100`: the
two digit character codes. -/
def pad2 (n : Nat) : List Nat := [48 + n / 10 % 10, 48 + n % 10]

/-- Character codes of `mm + "/" + dd + "/" + year` where `mm` and `dd`
are already two-digit-padded and `year` is the digit-code list of the
year (part_000 builds `today` and `birthday` in exactly this shape). -/
def dateCodes (mm dd : Nat) (year : List Nat) : List Nat :=
  pad2 mm ++ 47 :: pad2 dd ++ 47 :: year

/-- JavaScript string comparison `a > b`: lexicographic on character
codes; a proper prefix is smaller. -/
def strGT : List Nat → List Nat → Bool
  | a :: as, b :: bs =>
    if b < a then true
    else if a < b then false
    else strGT as bs
  | _ :: _, [] => true
  | [], _ => false

/-- part_000 lines 135-146: the year of the `birthday` deadline.  With
`today = mm + "/" + dd + "/" + yyyy` and `birthday = "09/30/" + yyyy`,
the year is advanced iff the string comparison `today > birthday` holds.
`mm` is `getMonth() + 1` (1..12) and `dd` is `getDate()` (1..31), both
zero-padded. -/
def birthdayYear (yyyy mm dd : Nat) : Nat :=
  if strGT (dateCodes mm dd (jsNatStr yyyy)) (dateCodes 9 30 (jsNatStr yyyy))
  then yyyy + 1 else yyyy

/-- A local calendar instant: year, month (1..12), day (1..31) and
milliseconds elapsed since that day's midnight. -/
structure LocalTime where
  year : Nat
  month : Nat
  day : Nat
  msOfDay : Nat
deriving DecidableEq, Repr

/-- Chronological strict order on local instants, via lexicographic
comparison of (year, month, day, msOfDay). -/
def LocalTime.before (a b : LocalTime) : Bool :=
  if a.year < b.year then true
  else if b.year < a.year then false
  else if a.month < b.month then true
  else if b.month < a.month then false
  else if a.day < b.day then true
  else if b.day < a.day then false
  else a.msOfDay < b.msOfDay

/-- The deadline instant the IIFE counts down to: `new Date(birthday)`
where `birthday = "09/30/" + birthdayYear`, i.e. local midnight of
September 30 of the chosen year. -/
def iife_deadline (today : LocalTime) : LocalTime :=
  { year := birthdayYear today.year today.month today.day
    month := 9
    day := 30
    msOfDay := 0 }

/-! ## The unparseable-deadline path (NaN propagation)

`Date.parse` on a string it cannot parse returns `NaN`, and every
arithmetic operation and `Math.floor` propagate `NaN`, while every
comparison with `NaN` is false.  A JavaScript number that is either a
(representable-exactly) integer or `NaN` is embedded as `JSNum`. -/

inductive JSNum where
  | nan : JSNum
  | num : Int → JSNum
deriving DecidableEq, Repr

/-- JavaScript subtraction on possibly-NaN numbers. -/
def JSNum.sub : JSNum → JSNum → JSNum
  | num a, num b => num (a - b)
  | _, _ => nan

/-- JavaScript `Math.floor(x / c)` for a positive integer constant `c`. -/
def JSNum.floorDivC : JSNum → Int → JSNum
  | nan, _ => nan
  | num a, c => num (Int.fdiv a c)

/-- JavaScript `Math.floor((x % m) / c)` for positive integer constants `m`, `c`
(`%` is the JS truncated remainder, which propagates NaN). -/
def JSNum.fmodFloorDivC : JSNum → Int → Int → JSNum
  | nan, _, _ => nan
  | num a, m, c => num (Int.fdiv (Int.tmod a m) c)

/-- The JavaScript comparison `x <= 0`: false when `x` is `NaN`. -/
def JSNum.leZero : JSNum → Bool
  | nan => false
  | num a => a ≤ 0

/-- Result of `Date.parse(endtime)`: `some v` on a parseable deadline string with
instant `v`, `none` (NaN) on an unparseable one. -/
def parseToNum : Option Int → JSNum
  | some v => JSNum.num v
  | none => JSNum.nan

/-- Result of `time_remaining` with possibly-NaN deadline parse. -/
structure JSRemaining where
  total : JSNum
  days : JSNum
  hours : JSNum
  minutes : JSNum
  seconds : JSNum
deriving DecidableEq, Repr

/-- golf.js lines 39-46 without assuming the parse succeeds:
`t = Date.parse(endtime) - Date.parse(new Date())` is NaN whenever the
deadline string is unparseable, and every derived field is then NaN. -/
def time_remaining_js (endtime : Option Int) (now : Int) : JSRemaining :=
  let t := (parseToNum endtime).sub (JSNum.num now)
  { total := t
    days := t.floorDivC 86400000
    hours := t.fmodFloorDivC 86400000 3600000
    minutes := t.fmodFloorDivC 3600000 60000
    seconds := t.fmodFloorDivC 60000 1000 }

/-- Scheduled part of `run_clock` over possibly-NaN deadlines: the
interval is cleared only when `t.total <= 0` evaluates to true, which
never happens on a NaN total. -/
def run_clock_js_sched (endtime : Option Int) : List Int → List JSRemaining × Bool
  | [] => ([], false)
  | n :: rest =>
    let t := time_remaining_js endtime n
    if t.total.leZero then ([t], true)
    else
      let p := run_clock_js_sched endtime rest
      (t :: p.1, p.2)

/-- Trace of `run_clock` over possibly-NaN deadlines: the synchronous first
update (whose `clearInterval(undefined)` is a no-op) followed by the
scheduled ticks. -/
def run_clock_js_trace (endtime : Option Int) (nows : List Int) : List JSRemaining × Bool :=
  match nows with
  | [] => ([], false)
  | n0 :: rest =>
    let p := run_clock_js_sched endtime rest
    (time_remaining_js endtime n0 :: p.1, p.2)

/-! ## Helper lemmas -/

/-- On a nonnegative total, the JS truncated-remainder/floor arithmetic
of `time_remaining` coincides with the spec's floor/mod formulas. -/
theorem time_remaining_eq_spec {endtime now : Int} (h : now ≤ endtime) :
    time_remaining endtime now = spec_remaining endtime now := by
  have ht : (0 : Int) ≤ endtime - now := by omega
  simp only [time_remaining, spec_remaining, Remaining.mk.injEq]
  refine ⟨trivial, trivial, ?_, ?_, ?_⟩ <;>
    rw [Int.tmod_eq_emod ht (by decide), Int.fdiv_eq_ediv _ (by decide)]

/-- Telescoping identity: the four decomposed fields (in `ediv`/`emod`
form) recombine to the total rounded down to a multiple of 1000. -/
theorem emod_telescope (t : Int) :
    (t / 86400000) * 86400000 + ((t % 86400000) / 3600000) * 3600000
      + ((t % 3600000) / 60000) * 60000 + ((t % 60000) / 1000) * 1000
      = t - t % 1000 := by
  omega

/-! ## Claim C2 -/

/-- C2, counterexample: at deadline 0, now 1500 (total `-1500`), the
code's seconds field is `-2` (JS truncated remainder then floor), while
the claim's formula `floor((total mod 60000) / 1000)` with the
mathematical (nonnegative-remainder) mod gives `58`; the claimed field
equations fail on a negative total. -/
theorem C2_negative_total_diverges :
    (time_remaining 0 1500).seconds = -2 ∧
    (spec_remaining 0 1500).seconds = 58 ∧
    time_remaining 0 1500 ≠ spec_remaining 0 1500 := by decide

/-- C2 amended: for every deadline and now with `now ≤ deadline`, the
fields of `time_remaining` equal the spec's formulas
`days = floor(total / 86400000)`,
`hours = floor((total mod 86400000) / 3600000)`,
`minutes = floor((total mod 3600000) / 60000)`,
`seconds = floor((total mod 60000) / 1000)`. -/
theorem C2_fields_match_spec_formulas {endtime now : Int} (h : now ≤ endtime) :
    time_remaining endtime now = spec_remaining endtime now :=
  time_remaining_eq_spec h

/-- C2 amended, witness at deadline 2, now 1. -/
theorem C2_fields_match_spec_formulas_witness :
    time_remaining 2 1 = spec_remaining 2 1 :=
  C2_fields_match_spec_formulas (by decide)

/-! ## Claim C3 -/

/-- C3, counterexample: at deadline 1500, now 0 the total is 1500 but
the four fields recombine to 1000: sub-second milliseconds are lost, so
the round-trip law fails as stated. -/
theorem C3_roundtrip_fails_subsecond :
    (time_remaining 1500 0).total = 1500 ∧
    (time_remaining 1500 0).days * 86400000 + (time_remaining 1500 0).hours * 3600000
      + (time_remaining 1500 0).minutes * 60000 + (time_remaining 1500 0).seconds * 1000
      = 1000 ∧
    (1000 : Int) ≠ 1500 := by decide

/-- C3 amended: for `now ≤ deadline` all four fields are nonnegative and
they recombine to the total rounded down to a whole second, i.e. to
`total - total mod 1000` (hence to the total itself exactly when the
total is a multiple of 1000). -/
theorem C3_nonneg_and_roundtrip_mod_second (endtime now : Int) (h : now ≤ endtime) :
    (0 ≤ (time_remaining endtime now).days ∧ 0 ≤ (time_remaining endtime now).hours ∧
      0 ≤ (time_remaining endtime now).minutes ∧ 0 ≤ (time_remaining endtime now).seconds) ∧
    (time_remaining endtime now).days * 86400000 + (time_remaining endtime now).hours * 3600000
      + (time_remaining endtime now).minutes * 60000 + (time_remaining endtime now).seconds * 1000
      = (time_remaining endtime now).total - (time_remaining endtime now).total % 1000 := by
  have ht : (0 : Int) ≤ endtime - now := by omega
  rw [time_remaining_eq_spec h]
  simp only [spec_remaining, Int.fdiv_eq_ediv _ (show (0:Int) ≤ 86400000 by decide)]
  refine ⟨⟨?_, ?_, ?_, ?_⟩, ?_⟩ <;> omega

/-- C3 amended, witness at deadline 90061500, now 0
(total 90061500 = 1 day, 1 hour, 1 minute, 1.5 seconds). -/
theorem C3_nonneg_and_roundtrip_mod_second_witness :
    (0 ≤ (time_remaining 90061500 0).days ∧ 0 ≤ (time_remaining 90061500 0).hours ∧
      0 ≤ (time_remaining 90061500 0).minutes ∧ 0 ≤ (time_remaining 90061500 0).seconds) ∧
    (time_remaining 90061500 0).days * 86400000 + (time_remaining 90061500 0).hours * 3600000
      + (time_remaining 90061500 0).minutes * 60000 + (time_remaining 90061500 0).seconds * 1000
      = (time_remaining 90061500 0).total - (time_remaining 90061500 0).total % 1000 :=
  C3_nonneg_and_roundtrip_mod_second 90061500 0 (by decide)

/-! ## Claim C8 -/

/-- C8: `time_remaining` (the spec's `computeRemaining`, with the
clock reading made the explicit second argument) is deterministic: two
invocations on the same deadline and the same now yield the same record;
moreover the result depends only on the difference `deadline - now`.
As a Lean function of its two integer arguments it performs no side
effects and no I/O. -/
theorem C8_deterministic :
    (∀ deadline now r₁ r₂, r₁ = time_remaining deadline now →
        r₂ = time_remaining deadline now → r₁ = r₂) ∧
    (∀ d₁ n₁ d₂ n₂ : Int, d₁ - n₁ = d₂ - n₂ →
        time_remaining d₁ n₁ = time_remaining d₂ n₂) := by
  refine ⟨fun _ _ _ _ h₁ h₂ => h₁.trans h₂.symm, fun d₁ n₁ d₂ n₂ h => ?_⟩
  simp only [time_remaining, h]

/-- C8 witness: two invocations at deadline 10, now 3 agree, and the
pair (17, 10) with the same difference gives the same record. -/
theorem C8_deterministic_witness :
    time_remaining 10 3 = time_remaining 17 10 :=
  C8_deterministic.2 10 3 17 10 (by decide)

/-! ## Claim C9 -/

/-- C9: the spec's two worked examples.  In epoch milliseconds,
2025-09-30T00:00:00Z = 1759190400000, 2025-09-29T23:00:00Z =
1759186800000 (one hour earlier) and 2025-08-30T00:00:00Z =
1756512000000 (31 days earlier): the first gives
`{days 0, hours 1, minutes 0, seconds 0}` and the second
`{days 31, hours 0, minutes 0, seconds 0}`. -/
theorem C9_worked_examples :
    time_remaining 1759190400000 1759186800000
      = { total := 3600000, days := 0, hours := 1, minutes := 0, seconds := 0 } ∧
    time_remaining 1759190400000 1756512000000
      = { total := 2678400000, days := 31, hours := 0, minutes := 0, seconds := 0 } := by
  decide

/-! ## Claims C1 and C10 -/

/-- Every scheduled tick except possibly the last reports a positive
total: once a scheduled tick reports `total ≤ 0` the interval is
cleared and no further tick is delivered. -/
theorem run_clock_sched_dropLast_pos (endtime : Int) (ns : List Int) :
    ∀ r ∈ (run_clock_sched endtime ns).1.dropLast, 0 < r.total := by
  induction ns with
  | nil => simp [run_clock_sched]
  | cons n rest ih =>
    by_cases hc : (time_remaining endtime n).total ≤ 0
    · simp [run_clock_sched, hc]
    · rcases hp : (run_clock_sched endtime rest).1 with _ | ⟨x, xs⟩
      · simp [run_clock_sched, hc, hp]
      · intro r hr
        rw [show (run_clock_sched endtime (n :: rest)).1
              = time_remaining endtime n :: (run_clock_sched endtime rest).1 by
            simp [run_clock_sched, hc]] at hr
        rw [hp, List.dropLast_cons₂, List.mem_cons] at hr
        rcases hr with rfl | hr
        · omega
        · exact ih r (by rw [hp]; exact hr)

/-- The scheduled loop clears the interval exactly when some delivered
tick reports `total ≤ 0`. -/
theorem run_clock_sched_cleared_iff (endtime : Int) (ns : List Int) :
    (run_clock_sched endtime ns).2 = true ↔
      ∃ r ∈ (run_clock_sched endtime ns).1, r.total ≤ 0 := by
  induction ns with
  | nil => simp [run_clock_sched]
  | cons n rest ih =>
    by_cases hc : (time_remaining endtime n).total ≤ 0
    · simp [run_clock_sched, hc]
    · simp only [run_clock_sched, hc, if_false, List.mem_cons]
      constructor
      · intro h
        obtain ⟨r, hr, hr0⟩ := ih.mp h
        exact ⟨r, Or.inr hr, hr0⟩
      · rintro ⟨r, rfl | hr, hr0⟩
        · omega
        · exact ih.mpr ⟨r, hr, hr0⟩

/-- C1, counterexample: deadline 0 with the synchronous first update at
clock 0 and one scheduled reading at clock 1000.  The first tick already
reports `total = 0 ≤ 0`, but its `clearInterval(timeinterval)` runs
while `timeinterval` is still `undefined`, so the interval is armed
anyway and a second tick is still delivered; only that second tick
clears the interval.  This falsifies "no further tick is ever delivered
afterward" (and the cancellation fires on the second expiry detection,
not the first). -/
theorem C1_tick_after_expired_first_update :
    run_clock_trace 0 [0, 1000]
      = ([{ total := 0, days := 0, hours := 0, minutes := 0, seconds := 0 },
          { total := -1000, days := -1, hours := -1, minutes := -1, seconds := -1 }],
         true)
    ∧ ((0 : Int) ≤ 0 ∧ (run_clock_trace 0 [0, 1000]).1.length = 2) := by decide

/-- C1 amended: the terminal-state guarantee holds for the *scheduled*
ticks (those fired after `setInterval` assigned the live handle): every
scheduled tick other than the last reports a positive total — so once a
scheduled tick reports `total ≤ 0` no further tick is ever delivered,
for any subsequent clock readings — and the interval is cleared exactly
when some scheduled tick reports `total ≤ 0`.  The synchronous first
update of `run_clock` is excluded: its cancellation attempt targets the
still-undefined handle (claim C10). -/
theorem C1_scheduled_expiry_terminal (endtime : Int) (ns : List Int) :
    (∀ r ∈ (run_clock_sched endtime ns).1.dropLast, 0 < r.total) ∧
    ((run_clock_sched endtime ns).2 = true ↔
      ∃ r ∈ (run_clock_sched endtime ns).1, r.total ≤ 0) :=
  ⟨run_clock_sched_dropLast_pos endtime ns, run_clock_sched_cleared_iff endtime ns⟩

/-- C1 amended, witness: deadline 5000 with scheduled readings 0 and
6000; the non-final tick reports a positive total (5000), and the
cleared flag holds on account of the expired final tick. -/
theorem C1_scheduled_expiry_terminal_witness :
    0 < (time_remaining 5000 0).total ∧ (run_clock_sched 5000 [0, 6000]).2 = true :=
  ⟨(C1_scheduled_expiry_terminal 5000 [0, 6000]).1 (time_remaining 5000 0) (by decide),
   (C1_scheduled_expiry_terminal 5000 [0, 6000]).2.mpr
     ⟨time_remaining 5000 6000, by decide, by decide⟩⟩

/-- C10: the first update of `run_clock` runs synchronously before the
interval handle is assigned; when the deadline is already expired at
that first reading (`total ≤ 0`) and the clock does not go backwards,
the interval is armed anyway and exactly one further scheduled tick is
delivered (whatever later readings would have followed), after which the
interval is cleared. -/
theorem C10_one_extra_tick_when_expired_at_start
    (endtime n0 n1 : Int) (rest : List Int)
    (h0 : (time_remaining endtime n0).total ≤ 0) (h01 : n0 ≤ n1) :
    run_clock_trace endtime (n0 :: n1 :: rest)
      = ([time_remaining endtime n0, time_remaining endtime n1], true) := by
  have h1 : (time_remaining endtime n1).total ≤ 0 := by
    simp only [time_remaining] at h0 ⊢
    omega
  simp [run_clock_trace, run_clock_sched, h1]

/-- C10 witness: deadline 0, first reading 0, one scheduled reading 1. -/
theorem C10_one_extra_tick_when_expired_at_start_witness :
    run_clock_trace 0 [0, 1] = ([time_remaining 0 0, time_remaining 0 1], true) :=
  C10_one_extra_tick_when_expired_at_start 0 0 1 [] (by decide) (by decide)

/-! ## Claim C4 -/

/-- C4: when now equals the deadline exactly, both tick computations
yield all-zero fields (`time_remaining` additionally a zero total), and
the IIFE timer reaches its terminal state on the next tick: the tick at
the deadline instant does not clear the interval (its test is the strict
`distance < 0`), and the next tick, at any strictly later reading,
performs the expiry side effects and clears it, whatever readings would
have followed. -/
theorem C4_zero_at_deadline_terminal_next_tick
    (d n' : Int) (rest : List Int) (h : d < n') :
    time_remaining d d = { total := 0, days := 0, hours := 0, minutes := 0, seconds := 0 } ∧
    iife_remaining d d = { days := 0, hours := 0, minutes := 0, seconds := 0 } ∧
    iife_run d (d :: n' :: rest) = ([iife_remaining d d, iife_remaining d n'], true) := by
  have h0 : ¬ d - d < 0 := by omega
  have h1 : d - n' < 0 := by omega
  refine ⟨?_, ?_, ?_⟩
  · simp [time_remaining]
  · simp [iife_remaining]
  · simp [iife_run, h0, h1]

/-- C4 witness: deadline 0, next reading 1. -/
theorem C4_zero_at_deadline_terminal_next_tick_witness :
    time_remaining 0 0 = { total := 0, days := 0, hours := 0, minutes := 0, seconds := 0 } ∧
    iife_remaining 0 0 = { days := 0, hours := 0, minutes := 0, seconds := 0 } ∧
    iife_run 0 [0, 1] = ([iife_remaining 0 0, iife_remaining 0 1], true) :=
  C4_zero_at_deadline_terminal_next_tick 0 1 [] (by decide)

/-! ## Claim C7 -/

/-- With an unparseable deadline every tick computation is all-NaN. -/
theorem time_remaining_js_none (n : Int) :
    time_remaining_js none n
      = { total := JSNum.nan, days := JSNum.nan, hours := JSNum.nan,
          minutes := JSNum.nan, seconds := JSNum.nan } := rfl

/-- With an unparseable deadline the scheduled loop never clears the
interval and delivers an all-NaN tick for every scheduled reading. -/
theorem run_clock_js_sched_none (ns : List Int) :
    run_clock_js_sched none ns
      = (ns.map (fun _ =>
          ({ total := JSNum.nan, days := JSNum.nan, hours := JSNum.nan,
             minutes := JSNum.nan, seconds := JSNum.nan } : JSRemaining)), false) := by
  induction ns with
  | nil => rfl
  | cons n rest ih =>
    simp [run_clock_js_sched, time_remaining_js_none, JSNum.leZero, ih]

/-- C7, counterexample: with an unparseable deadline string
(`Date.parse` yields NaN), `run_clock` performs no validation and fails
nothing: the first update runs, the interval is armed, a scheduled tick
is delivered (two ticks for readings `[0, 1000]`), and the interval is
never cleared (`NaN <= 0` is false) — contradicting "no timer (not even
a partial or degraded one) is scheduled against the unparseable
deadline". -/
theorem C7_no_validation_timer_runs :
    (run_clock_js_trace none [0, 1000]).1.length = 2 ∧
    (run_clock_js_trace none [0, 1000]).2 = false ∧
    (time_remaining_js none 0).total = JSNum.nan := by decide

/-- C7 amended: the code has no `InvalidDeadline` condition.  With an
unparseable deadline the timer is constructed and scheduled anyway: for
any clock readings, every reading produces a delivered tick whose fields
are all NaN, and the interval is never cleared. -/
theorem C7_unparseable_deadline_ticks_forever (nows : List Int) :
    (run_clock_js_trace none nows).1.length = nows.length ∧
    (run_clock_js_trace none nows).2 = false ∧
    ∀ r ∈ (run_clock_js_trace none nows).1, r.total = JSNum.nan := by
  cases nows with
  | nil => simp [run_clock_js_trace]
  | cons n0 rest =>
    refine ⟨?_, ?_, ?_⟩
    · simp [run_clock_js_trace, run_clock_js_sched_none]
    · simp [run_clock_js_trace, run_clock_js_sched_none]
    · intro r hr
      simp only [run_clock_js_trace, run_clock_js_sched_none, time_remaining_js_none,
        List.mem_cons, List.mem_map] at hr
      rcases hr with rfl | ⟨_, _, rfl⟩ <;> rfl

/-- C7 amended, witness at the single reading 5. -/
theorem C7_unparseable_deadline_ticks_forever_witness :
    (run_clock_js_trace none [5]).1.length = 1 ∧
    (run_clock_js_trace none [5]).2 = false ∧
    (time_remaining_js none 5).total = JSNum.nan :=
  ⟨(C7_unparseable_deadline_ticks_forever [5]).1,
   (C7_unparseable_deadline_ticks_forever [5]).2.1,
   (C7_unparseable_deadline_ticks_forever [5]).2.2 (time_remaining_js none 5) (by decide)⟩

/-! ## Claim C5 -/

/-- Evaluation of the date-string comparison `today > birthday` of
part_000: for calendar components in range (and excluding the equal
strings of the fixed month/day itself), the comparison of the two
equal-year strings is decided by the month and day digits alone,
whatever the year's digit string is. -/
theorem strGT_dateCodes_eval :
    ∀ m, m ≤ 12 → ∀ d, d ≤ 31 → ¬(m = 9 ∧ d = 30) → ∀ ys,
      strGT (dateCodes m d ys) (dateCodes 9 30 ys)
        = (decide (9 < m) || (decide (m = 9) && decide (30 < d))) := by
  intro m hm d hd hne ys
  interval_cases m <;> interval_cases d <;> simp_all [dateCodes, pad2, strGT]

/-- C5, counterexample: initializing exactly at local midnight of
September 30, 2025, the string comparison `today > birthday` is false
(the strings are equal), so the year is not advanced and the computed
deadline is that very midnight — not strictly in the future (and any
later moment that day makes it strictly past). -/
theorem C5_not_future_on_target_day :
    iife_deadline { year := 2025, month := 9, day := 30, msOfDay := 0 }
      = { year := 2025, month := 9, day := 30, msOfDay := 0 } ∧
    LocalTime.before { year := 2025, month := 9, day := 30, msOfDay := 0 }
      (iife_deadline { year := 2025, month := 9, day := 30, msOfDay := 0 }) = false := by
  decide

/-- C5 amended: the computed deadline is strictly in the future for
every initialization instant except those on the fixed month/day
(September 30) itself: if today is not September 30, local midnight of
September 30 of the chosen year lies strictly after the initialization
instant.  (On September 30 the year is not advanced — the string
comparison is `>`, not `>=` — and the deadline is that day's already
begun midnight.) -/
theorem C5_deadline_future_off_target_day (today : LocalTime)
    (hm : today.month ≤ 12) (hd : today.day ≤ 31)
    (hne : ¬(today.month = 9 ∧ today.day = 30)) :
    LocalTime.before today (iife_deadline today) = true := by
  obtain ⟨y, m, d, ms⟩ := today
  simp only at hm hd hne
  simp only [iife_deadline, birthdayYear]
  rw [strGT_dateCodes_eval m hm d hd hne (jsNatStr y)]
  by_cases h9 : 9 < m
  · simp only [h9, decide_True, Bool.true_or, if_pos]
    simp [LocalTime.before]
  · by_cases he : m = 9
    · by_cases h30 : 30 < d
      · simp only [h9, decide_False, he, decide_True, h30, Bool.false_or,
          Bool.true_and, if_pos]
        simp [LocalTime.before]
      · have hdlt : d < 30 := by omega
        simp only [h9, decide_False, h30, Bool.and_false, Bool.or_false, if_neg,
          Bool.false_eq_true, not_false_eq_true]
        simp [LocalTime.before, he, hdlt]
    · have hmlt : m < 9 := by omega
      simp only [h9, decide_False, he, Bool.false_and, Bool.or_false, if_neg,
        Bool.false_eq_true, not_false_eq_true]
      simp [LocalTime.before, hmlt]

/-- C5 amended, witness: initialization on January 15, 2025 (midnight). -/
theorem C5_deadline_future_off_target_day_witness :
    LocalTime.before { year := 2025, month := 1, day := 15, msOfDay := 0 }
      (iife_deadline { year := 2025, month := 1, day := 15, msOfDay := 0 }) = true :=
  C5_deadline_future_off_target_day
    { year := 2025, month := 1, day := 15, msOfDay := 0 }
    (by decide) (by decide) (by decide)

/-! ## Claim C6 -/

/-- Padding `('0' + x).slice(-2)` of a value below 60 is exactly two decimal
digit characters (codes 48..57). -/
theorem padded2_two_digits :
    ∀ x : Nat, x < 60 →
      (slice2 (48 :: jsNatStr x)).length = 2 ∧
      ∀ c ∈ slice2 (48 :: jsNatStr x), 48 ≤ c ∧ c ≤ 57 := by decide

/-- On a nonnegative total, the hours, minutes and seconds fields of
`time_remaining` all lie in `[0, 60)`. -/
theorem time_remaining_hms_bounds (endtime now : Int) (h : now ≤ endtime) :
    (0 ≤ (time_remaining endtime now).hours ∧ (time_remaining endtime now).hours < 60) ∧
    (0 ≤ (time_remaining endtime now).minutes ∧ (time_remaining endtime now).minutes < 60) ∧
    (0 ≤ (time_remaining endtime now).seconds ∧ (time_remaining endtime now).seconds < 60) := by
  rw [time_remaining_eq_spec h]
  have ht : (0 : Int) ≤ endtime - now := by omega
  simp only [spec_remaining]
  refine ⟨⟨?_, ?_⟩, ⟨?_, ?_⟩, ⟨?_, ?_⟩⟩ <;> omega

/-- C6, counterexample: the IIFE countdown writes its slots unpadded.
At distance 18000000 ms (five hours) it writes the single character "5"
(code 53) into the hours slot — not a two-digit zero-padded string. -/
theorem C6_iife_hours_unpadded :
    (iife_writes 18000000 0).hours = [53] ∧
    ¬ (iife_writes 18000000 0).hours.length = 2 := by decide

/-- C6 amended: the padding claim holds for the golf.js `run_clock`
sink: on every tick with nonnegative remaining total, the hours,
minutes and seconds slots receive exactly two decimal digit characters
(zero-padded via `('0' + x).slice(-2)`) and the days slot receives the
unpadded decimal string of the days value; the part_000 IIFE sink
instead receives the unpadded decimal string in all four slots. -/
theorem C6_golf_pads_iife_does_not (endtime now : Int) (h : now ≤ endtime) :
    ((golf_writes endtime now).hours.length = 2 ∧
      ∀ c ∈ (golf_writes endtime now).hours, 48 ≤ c ∧ c ≤ 57) ∧
    ((golf_writes endtime now).minutes.length = 2 ∧
      ∀ c ∈ (golf_writes endtime now).minutes, 48 ≤ c ∧ c ≤ 57) ∧
    ((golf_writes endtime now).seconds.length = 2 ∧
      ∀ c ∈ (golf_writes endtime now).seconds, 48 ≤ c ∧ c ≤ 57) ∧
    (golf_writes endtime now).days = jsIntStr (time_remaining endtime now).days ∧
    (iife_writes endtime now).hours = jsIntStr (iife_remaining endtime now).hours ∧
    (iife_writes endtime now).minutes = jsIntStr (iife_remaining endtime now).minutes ∧
    (iife_writes endtime now).seconds = jsIntStr (iife_remaining endtime now).seconds := by
  obtain ⟨⟨hh0, hh1⟩, ⟨hm0, hm1⟩, ⟨hs0, hs1⟩⟩ := time_remaining_hms_bounds endtime now h
  refine ⟨?_, ?_, ?_, rfl, rfl, rfl, rfl⟩ <;>
    simp only [golf_writes, padded2, jsIntStr] <;>
    [skip; skip; skip] <;>
    first
    | (rw [if_neg (by omega : ¬ (time_remaining endtime now).hours < 0)]
       exact padded2_two_digits (time_remaining endtime now).hours.toNat (by omega))
    | (rw [if_neg (by omega : ¬ (time_remaining endtime now).minutes < 0)]
       exact padded2_two_digits (time_remaining endtime now).minutes.toNat (by omega))
    | (rw [if_neg (by omega : ¬ (time_remaining endtime now).seconds < 0)]
       exact padded2_two_digits (time_remaining endtime now).seconds.toNat (by omega))

/-- C6 amended, witness: deadline one hour and five seconds after now 0. -/
theorem C6_golf_pads_iife_does_not_witness :
    ((golf_writes 3605000 0).hours.length = 2 ∧
      ∀ c ∈ (golf_writes 3605000 0).hours, 48 ≤ c ∧ c ≤ 57) ∧
    ((golf_writes 3605000 0).minutes.length = 2 ∧
      ∀ c ∈ (golf_writes 3605000 0).minutes, 48 ≤ c ∧ c ≤ 57) ∧
    ((golf_writes 3605000 0).seconds.length = 2 ∧
      ∀ c ∈ (golf_writes 3605000 0).seconds, 48 ≤ c ∧ c ≤ 57) ∧
    (golf_writes 3605000 0).days = jsIntStr (time_remaining 3605000 0).days ∧
    (iife_writes 3605000 0).hours = jsIntStr (iife_remaining 3605000 0).hours ∧
    (iife_writes 3605000 0).minutes = jsIntStr (iife_remaining 3605000 0).minutes ∧
    (iife_writes 3605000 0).seconds = jsIntStr (iife_remaining 3605000 0).seconds :=
  C6_golf_pads_iife_does_not 3605000 0 (by decide)
